import Mathlib

/-!
Shallow embedding of the cloud-init `cc_osconfig` module
(`cloudinit/config/cc_osconfig.py`).

The module's `handle` function reads the declarative `osconfig` section of
the cloud configuration, ensures the `osconfig` package is installed, loads
the persisted JSON state at `/etc/osconfig/osconfig.json`, overlays a small
set of keys onto it, and rewrites the file between a service stop and a
service start.

Python dicts are modelled as association lists of string keys and JSON
values (`JDict`), with `dset` giving the semantics of `d[k] = v` (replace in
place if present, append otherwise) and `dget` the semantics of `d.get(k)`
(default `None`).  Python truthiness on JSON values is `truthy`.  The
side-effecting orchestration of `handle` is modelled as a trace of `Effect`s
together with an `Except` outcome, driven by an `Env` record describing the
external world (whether the binary is installed, whether installation
succeeds, and the result of loading the persisted state file).
-/

/-- JSON-compatible values, as stored in Python dicts. -/
inductive JVal where
  | null : JVal
  | bool : Bool → JVal
  | num : Int → JVal
  | str : String → JVal
  | arr : List JVal → JVal
  | obj : List (String × JVal) → JVal

/-- A Python dict with string keys, as an insertion-ordered association list. -/
abbrev JDict := List (String × JVal)

/-- First-match lookup: `d[k]` as an `Option`. -/
def dlookup : JDict → String → Option JVal
  | [], _ => none
  | (k1, v1) :: rest, key => if k1 = key then some v1 else dlookup rest key

/-- `d.get(k)`: lookup defaulting to `None` when the key is absent. -/
def dget (m : JDict) (key : String) : JVal :=
  (dlookup m key).getD JVal.null

/-- `d[k] = v`: replace the value at the first occurrence of `k`,
or append `(k, v)` when `k` is absent. -/
def dset : JDict → String → JVal → JDict
  | [], key, val => [(key, val)]
  | (k1, v1) :: rest, key, val =>
    if k1 = key then (k1, val) :: rest else (k1, v1) :: dset rest key val

/-- Python truthiness on JSON values (`if x:`). -/
def truthy : JVal → Bool
  | JVal.null => false
  | JVal.bool b => b
  | JVal.num n => n != 0
  | JVal.str s => !s.isEmpty
  | JVal.arr xs => !xs.isEmpty
  | JVal.obj kvs => !kvs.isEmpty

/-- `OSCONFIG_CONFIGURATION_FILEPATH` from the module. -/
def OSCONFIG_CONFIGURATION_FILEPATH : String := "/etc/osconfig/osconfig.json"

/-- The merge step of `handle` (cc_osconfig.py lines 80-115): read the six
recognized option keys from the `osconfig` section and overlay them onto the
loaded configuration `mycfg`.  The key written in the `git_management`
branch is the source's literal (misspelled) `"GitMananagement"`. -/
def reconcile (mycfg0 : JDict) (osconfig_cfg : JDict) : JDict :=
  let osconfig_localManagement_cfg := dget osconfig_cfg "local_management"
  let osconfig_gitManagement_cfg := dget osconfig_cfg "git_management"
  let osconfig_gitRepositoryUrl_cfg := dget osconfig_cfg "git_repository_url"
  let osconfig_gitBranch_cfg := dget osconfig_cfg "git_branch"
  let osconfig_debugCommandLogging_cfg := dget osconfig_cfg "debug_command_logging"
  let osconfig_debugFullLogging_cfg := dget osconfig_cfg "debug_full_logging"
  let mycfg1 :=
    if truthy osconfig_localManagement_cfg then
      dset mycfg0 "LocalManagement" osconfig_localManagement_cfg
    else if truthy osconfig_gitManagement_cfg then
      dset (dset (dset mycfg0 "GitMananagement" osconfig_gitManagement_cfg)
          "GitRepositoryUrl" osconfig_gitRepositoryUrl_cfg)
        "GitBranch" osconfig_gitBranch_cfg
    else mycfg0
  let mycfg2 :=
    if truthy osconfig_debugCommandLogging_cfg then
      dset mycfg1 "CommandLogging" osconfig_debugCommandLogging_cfg
    else mycfg1
  if truthy osconfig_debugFullLogging_cfg then
    dset mycfg2 "FullLogging" osconfig_debugFullLogging_cfg
  else mycfg2

/-- Observable side effects of a run of the module. -/
inductive Effect where
  | logInfo : String → Effect
  | whichCheck : String → Effect
  | installPackages : List String → Effect
  | loadStateFile : String → Effect
  | serviceStop : String → Effect
  | writeJson : String → JDict → Effect
  | serviceStart : String → Effect

/-- External world driving a run: whether `subp.which("osconfig")` finds the
binary, whether `install_packages` succeeds, and the result of
`util.load_json(util.load_text_file(...))` on the persisted state file. -/
structure Env where
  osconfigInstalled : Bool
  installOk : Bool
  loadResult : Except String JDict

/-- `update_config(distro, config)`: stop the service, write the JSON file,
start the service. -/
def update_config (config : JDict) : List Effect :=
  [Effect.serviceStop "osconfig",
   Effect.writeJson OSCONFIG_CONFIGURATION_FILEPATH config,
   Effect.serviceStart "osconfig"]

/-- `handle(name, cfg, cloud, args)` as an effect trace plus outcome.
If the `"osconfig"` key is absent the module logs and returns.  Otherwise it
checks for the binary (installing on a miss, fatally if installation fails),
loads the persisted state (fatally on a load error), merges via `reconcile`,
and persists via `update_config`.  A present but non-dict `osconfig` value
raises before any effect (Python `AttributeError` on `.get`). -/
def handle (name : String) (cfg : JDict) (env : Env) :
    List Effect × Except String Unit :=
  match dlookup cfg "osconfig" with
  | none =>
    ([Effect.logInfo ("Skipping module named " ++ name ++
        ", no 'osconfig' key in configuration")], Except.ok ())
  | some (JVal.obj osconfig_cfg) =>
    let installEffs : List Effect :=
      if env.osconfigInstalled then [Effect.whichCheck "osconfig"]
      else [Effect.whichCheck "osconfig", Effect.installPackages ["osconfig"]]
    if !env.osconfigInstalled && !env.installOk then
      (installEffs, Except.error "install_packages failed")
    else
      match env.loadResult with
      | Except.error e =>
        (installEffs ++ [Effect.loadStateFile OSCONFIG_CONFIGURATION_FILEPATH],
         Except.error e)
      | Except.ok mycfg =>
        (installEffs ++ [Effect.loadStateFile OSCONFIG_CONFIGURATION_FILEPATH]
           ++ update_config (reconcile mycfg osconfig_cfg),
         Except.ok ())
  | some _ => ([], Except.error "AttributeError")

/-- The six managed keys named by the specification. -/
def managedKeys : List String :=
  ["LocalManagement", "GitManagement", "GitRepositoryUrl",
   "GitBranch", "CommandLogging", "FullLogging"]

/-- Effects that touch the persisted state or the service lifecycle. -/
def persistEffect : Effect → Bool
  | Effect.writeJson _ _ => true
  | Effect.serviceStop _ => true
  | Effect.serviceStart _ => true
  | _ => false

/-- Outcome is a propagated error. -/
def isFatal : Except String Unit → Bool
  | Except.error _ => true
  | Except.ok _ => false

/-! ## Dictionary lemmas -/

theorem dlookup_dset_self :
    ∀ (m : JDict) (k : String) (v : JVal), dlookup (dset m k v) k = some v
  | [], k, v => by simp [dset, dlookup]
  | (k1, v1) :: rest, k, v => by
    by_cases h : k1 = k
    · simp [dset, dlookup, h]
    · simp only [dset, dlookup, if_neg h]
      exact dlookup_dset_self rest k v

theorem dlookup_dset_ne :
    ∀ (m : JDict) (k k2 : String) (v : JVal), k2 ≠ k →
      dlookup (dset m k v) k2 = dlookup m k2
  | [], k, k2, v, hne => by simp [dset, dlookup, Ne.symm hne]
  | (k1, v1) :: rest, k, k2, v, hne => by
    by_cases h : k1 = k
    · subst h
      simp [dset, dlookup, Ne.symm hne]
    · simp only [dset, dlookup, if_neg h]
      by_cases h2 : k1 = k2
      · simp [h2]
      · simp only [if_neg h2]
        exact dlookup_dset_ne rest k k2 v hne

/-- When none of the four guarding option keys is truthy, `reconcile` is the
identity on the loaded state. -/
theorem reconcile_eq_of_falsy (S opts : JDict)
    (h1 : truthy (dget opts "local_management") = false)
    (h2 : truthy (dget opts "git_management") = false)
    (h3 : truthy (dget opts "debug_command_logging") = false)
    (h4 : truthy (dget opts "debug_full_logging") = false) :
    reconcile S opts = S := by
  simp [reconcile, h1, h2, h3, h4]

/-! ## Claims -/

/-- C1: the claim says a truthy `git_management` (with falsy
`local_management`) makes the result map the key `"GitManagement"` to the
option value.  The code instead writes the misspelled key
`"GitMananagement"`: at the concrete input below, `"GitManagement"` is
absent from the result while `"GitMananagement"` carries the value;
`"GitRepositoryUrl"` and `"GitBranch"` are set as the claim says. -/
theorem C1_gitManagement_key_misspelled :
    dlookup (reconcile []
      [("git_management", JVal.num 1),
       ("git_repository_url", JVal.str "https://example.com/r"),
       ("git_branch", JVal.str "main")]) "GitManagement" = none ∧
    dlookup (reconcile []
      [("git_management", JVal.num 1),
       ("git_repository_url", JVal.str "https://example.com/r"),
       ("git_branch", JVal.str "main")]) "GitMananagement" = some (JVal.num 1) ∧
    dlookup (reconcile []
      [("git_management", JVal.num 1),
       ("git_repository_url", JVal.str "https://example.com/r"),
       ("git_branch", JVal.str "main")]) "GitRepositoryUrl"
      = some (JVal.str "https://example.com/r") ∧
    dlookup (reconcile []
      [("git_management", JVal.num 1),
       ("git_repository_url", JVal.str "https://example.com/r"),
       ("git_branch", JVal.str "main")]) "GitBranch" = some (JVal.str "main") :=
  ⟨rfl, rfl, rfl, rfl⟩

/-- C2: the keys `command_logging`/`full_logging` from the module's own
documented example are silently ignored: whatever their values, the merge
leaves every state unchanged, and a full run of `handle` is observably
identical to a run with an empty `osconfig` section, so nothing flags them
as unrecognized either. -/
theorem C2_documented_logging_keys_ignored (S : JDict) (v1 v2 : JVal)
    (name : String) (env : Env) :
    reconcile S [("command_logging", v1), ("full_logging", v2)] = S ∧
    handle name [("osconfig",
        JVal.obj [("command_logging", v1), ("full_logging", v2)])] env
      = handle name [("osconfig", JVal.obj [])] env := by
  constructor
  · rfl
  · obtain ⟨inst, iok, lr⟩ := env
    cases inst <;> cases iok <;> cases lr <;> rfl

/-- C3: when `local_management` is truthy the result maps
`"LocalManagement"` to the option value, and the lookups of
`"GitManagement"`, `"GitRepositoryUrl"` and `"GitBranch"` are exactly those
of the existing state — no git key is written or removed, even when
`git_management` is also truthy. -/
theorem C3_local_management_wins (S opts : JDict)
    (h : truthy (dget opts "local_management") = true) :
    dlookup (reconcile S opts) "LocalManagement"
      = some (dget opts "local_management") ∧
    dlookup (reconcile S opts) "GitManagement" = dlookup S "GitManagement" ∧
    dlookup (reconcile S opts) "GitRepositoryUrl" = dlookup S "GitRepositoryUrl" ∧
    dlookup (reconcile S opts) "GitBranch" = dlookup S "GitBranch" := by
  by_cases hc : truthy (dget opts "debug_command_logging") <;>
    by_cases hf : truthy (dget opts "debug_full_logging") <;>
    simp [reconcile, h, hc, hf, dlookup_dset_self, dlookup_dset_ne]

/-- C3 witness at a concrete input: both management flags truthy, a
pre-existing `GitBranch` key is preserved and no git key is introduced. -/
theorem C3_local_management_wins_witness :
    dlookup (reconcile [("GitBranch", JVal.str "old")]
        [("local_management", JVal.num 1), ("git_management", JVal.num 1)])
      "LocalManagement" = some (JVal.num 1) ∧
    dlookup (reconcile [("GitBranch", JVal.str "old")]
        [("local_management", JVal.num 1), ("git_management", JVal.num 1)])
      "GitManagement" = none ∧
    dlookup (reconcile [("GitBranch", JVal.str "old")]
        [("local_management", JVal.num 1), ("git_management", JVal.num 1)])
      "GitRepositoryUrl" = none ∧
    dlookup (reconcile [("GitBranch", JVal.str "old")]
        [("local_management", JVal.num 1), ("git_management", JVal.num 1)])
      "GitBranch" = some (JVal.str "old") :=
  C3_local_management_wins [("GitBranch", JVal.str "old")]
    [("local_management", JVal.num 1), ("git_management", JVal.num 1)] rfl

/-- C4: the claim says every key outside the six managed keys is preserved
with its original value.  The misspelled key `"GitMananagement"` is outside
the six managed keys, yet a truthy `git_management` overwrites it: starting
from a state where it holds `"keepme"`, the result holds `1`. -/
theorem C4_unmanaged_key_overwritten :
    "GitMananagement" ∉ managedKeys ∧
    dlookup [("GitMananagement", JVal.str "keepme")] "GitMananagement"
      = some (JVal.str "keepme") ∧
    dlookup (reconcile [("GitMananagement", JVal.str "keepme")]
        [("git_management", JVal.num 1)]) "GitMananagement"
      = some (JVal.num 1) :=
  ⟨by decide, rfl, rfl⟩

/-- C5: reconciling any state with an options record whose six recognized
fields are all absent or falsy returns the state unchanged. -/
theorem C5_identity_merge (S opts : JDict)
    (h1 : truthy (dget opts "local_management") = false)
    (h2 : truthy (dget opts "git_management") = false)
    (h3 : truthy (dget opts "git_repository_url") = false)
    (h4 : truthy (dget opts "git_branch") = false)
    (h5 : truthy (dget opts "debug_command_logging") = false)
    (h6 : truthy (dget opts "debug_full_logging") = false) :
    reconcile S opts = S :=
  reconcile_eq_of_falsy S opts h1 h2 h5 h6

/-- C5 witness: the identity merge at a concrete state and empty options. -/
theorem C5_identity_merge_witness :
    reconcile [("Other", JVal.str "x"), ("LocalManagement", JVal.num 0)] []
      = [("Other", JVal.str "x"), ("LocalManagement", JVal.num 0)] :=
  C5_identity_merge [("Other", JVal.str "x"), ("LocalManagement", JVal.num 0)]
    [] rfl rfl rfl rfl rfl rfl

/-- C6: a truthy `debug_command_logging` makes the result map
`"CommandLogging"` to its value, and a truthy `debug_full_logging` makes the
result map `"FullLogging"` to its value, for every options record — hence
regardless of which branch (if either) of the local/git step fired. -/
theorem C6_debug_flags_independent (S opts : JDict) :
    (truthy (dget opts "debug_command_logging") = true →
      dlookup (reconcile S opts) "CommandLogging"
        = some (dget opts "debug_command_logging")) ∧
    (truthy (dget opts "debug_full_logging") = true →
      dlookup (reconcile S opts) "FullLogging"
        = some (dget opts "debug_full_logging")) := by
  constructor <;> intro h <;>
    by_cases hl : truthy (dget opts "local_management") <;>
    by_cases hg : truthy (dget opts "git_management") <;>
    by_cases hc : truthy (dget opts "debug_command_logging") <;>
    by_cases hf : truthy (dget opts "debug_full_logging") <;>
    simp_all [reconcile, dlookup_dset_self, dlookup_dset_ne]

/-- C6 witness: both debug flags truthy together with `local_management`,
at a concrete input. -/
theorem C6_debug_flags_independent_witness :
    dlookup (reconcile []
        [("local_management", JVal.num 1),
         ("debug_command_logging", JVal.num 1),
         ("debug_full_logging", JVal.num 1)]) "CommandLogging"
      = some (JVal.num 1) ∧
    dlookup (reconcile []
        [("local_management", JVal.num 1),
         ("debug_command_logging", JVal.num 1),
         ("debug_full_logging", JVal.num 1)]) "FullLogging"
      = some (JVal.num 1) :=
  ⟨(C6_debug_flags_independent []
      [("local_management", JVal.num 1),
       ("debug_command_logging", JVal.num 1),
       ("debug_full_logging", JVal.num 1)]).1 rfl,
   (C6_debug_flags_independent []
      [("local_management", JVal.num 1),
       ("debug_command_logging", JVal.num 1),
       ("debug_full_logging", JVal.num 1)]).2 rfl⟩

/-- C7: when the configuration has no `osconfig` key, `handle` only logs
and returns successfully — its trace is exactly one log entry, so the state
file is neither read nor written, no installation is attempted, and the
service is never stopped or started. -/
theorem C7_no_section_skips_everything (name : String) (cfg : JDict)
    (env : Env) (h : dlookup cfg "osconfig" = none) :
    handle name cfg env =
      ([Effect.logInfo ("Skipping module named " ++ name ++
          ", no 'osconfig' key in configuration")], Except.ok ()) := by
  unfold handle
  rw [h]

/-- C7 witness at the empty configuration. -/
theorem C7_no_section_skips_everything_witness :
    handle "cc_osconfig" [] ⟨true, true, Except.ok []⟩ =
      ([Effect.logInfo ("Skipping module named " ++ "cc_osconfig" ++
          ", no 'osconfig' key in configuration")], Except.ok ()) :=
  C7_no_section_skips_everything "cc_osconfig" [] ⟨true, true, Except.ok []⟩ rfl

/-- C8: in a run whose `osconfig` section is present, if installation is
needed and fails, or if loading the persisted state fails, the outcome is a
propagated error and the trace contains no state-file write, no service
stop and no service start. -/
theorem C8_failures_fatal_no_persist (name : String) (cfg : JDict)
    (env : Env) (d : JDict)
    (hs : dlookup cfg "osconfig" = some (JVal.obj d))
    (hfail : (env.osconfigInstalled = false ∧ env.installOk = false) ∨
      (∃ e, env.loadResult = Except.error e)) :
    isFatal (handle name cfg env).2 = true ∧
    ∀ eff ∈ (handle name cfg env).1, persistEffect eff = false := by
  obtain ⟨inst, iok, lr⟩ := env
  rcases hfail with ⟨h1, h2⟩ | ⟨e, he⟩
  · subst h1; subst h2
    simp [handle, hs, isFatal, persistEffect, List.forall_mem_cons]
  · subst he
    cases inst <;> cases iok <;>
      simp [handle, hs, isFatal, persistEffect, List.forall_mem_cons]

/-- C8 witness: installation failure at a concrete run. -/
theorem C8_failures_fatal_no_persist_witness :
    isFatal (handle "cc_osconfig" [("osconfig", JVal.obj [])]
        ⟨false, false, Except.ok []⟩).2 = true ∧
    ∀ eff ∈ (handle "cc_osconfig" [("osconfig", JVal.obj [])]
        ⟨false, false, Except.ok []⟩).1, persistEffect eff = false :=
  C8_failures_fatal_no_persist "cc_osconfig" [("osconfig", JVal.obj [])]
    ⟨false, false, Except.ok []⟩ [] rfl (Or.inl ⟨rfl, rfl⟩)

/-- C9: any run whose trace contains a state-file write ends in exactly
service stop, file write, service start, and everything before that final
block is neither a write nor a service stop/start — so installation and
load failures happen before any stop. -/
theorem C9_stop_write_start_surround_write_only (name : String)
    (cfg : JDict) (env : Env)
    (h : ∃ p c, Effect.writeJson p c ∈ (handle name cfg env).1) :
    ∃ pre c,
      (handle name cfg env).1 =
        pre ++ [Effect.serviceStop "osconfig",
                Effect.writeJson OSCONFIG_CONFIGURATION_FILEPATH c,
                Effect.serviceStart "osconfig"] ∧
      ∀ eff ∈ pre, persistEffect eff = false := by
  obtain ⟨inst, iok, lr⟩ := env
  obtain ⟨p, c0, hmem⟩ := h
  rcases hv : dlookup cfg "osconfig" with _ | v
  · simp [handle, hv] at hmem
  · cases v with
    | obj d =>
      cases lr with
      | error e =>
        cases inst <;> cases iok <;> simp [handle, hv] at hmem
      | ok mycfg =>
        cases inst <;> cases iok
        · simp [handle, hv] at hmem
        · refine ⟨[Effect.whichCheck "osconfig", Effect.installPackages
              ["osconfig"], Effect.loadStateFile OSCONFIG_CONFIGURATION_FILEPATH],
            reconcile mycfg d, ?_, ?_⟩
          · simp [handle, hv, update_config]
          · simp [persistEffect, List.forall_mem_cons]
        · refine ⟨[Effect.whichCheck "osconfig",
              Effect.loadStateFile OSCONFIG_CONFIGURATION_FILEPATH],
            reconcile mycfg d, ?_, ?_⟩
          · simp [handle, hv, update_config]
          · simp [persistEffect, List.forall_mem_cons]
        · refine ⟨[Effect.whichCheck "osconfig",
              Effect.loadStateFile OSCONFIG_CONFIGURATION_FILEPATH],
            reconcile mycfg d, ?_, ?_⟩
          · simp [handle, hv, update_config]
          · simp [persistEffect, List.forall_mem_cons]
    | null => simp [handle, hv] at hmem
    | bool b => simp [handle, hv] at hmem
    | num n => simp [handle, hv] at hmem
    | str s => simp [handle, hv] at hmem
    | arr xs => simp [handle, hv] at hmem

/-- C9 witness: a concrete run that reaches the persist step. -/
theorem C9_stop_write_start_surround_write_only_witness :
    ∃ pre c,
      (handle "cc_osconfig" [("osconfig", JVal.obj [])]
          ⟨true, true, Except.ok []⟩).1 =
        pre ++ [Effect.serviceStop "osconfig",
                Effect.writeJson OSCONFIG_CONFIGURATION_FILEPATH c,
                Effect.serviceStart "osconfig"] ∧
      ∀ eff ∈ pre, persistEffect eff = false :=
  C9_stop_write_start_surround_write_only "cc_osconfig"
    [("osconfig", JVal.obj [])] ⟨true, true, Except.ok []⟩
    ⟨OSCONFIG_CONFIGURATION_FILEPATH, [],
      List.Mem.tail _ (List.Mem.tail _ (List.Mem.tail _ (List.Mem.head _)))⟩

/-- C10: with an `osconfig` section present but carrying no truthy
recognized option, and the binary already installed, `handle` still checks
the binary, reads the persisted state, stops the service, rewrites the file
with identical content, and starts the service — the skip happens only when
the key is entirely absent. -/
theorem C10_empty_section_full_cycle (name : String) (cfg d S : JDict)
    (env : Env)
    (hs : dlookup cfg "osconfig" = some (JVal.obj d))
    (h1 : truthy (dget d "local_management") = false)
    (h2 : truthy (dget d "git_management") = false)
    (h3 : truthy (dget d "debug_command_logging") = false)
    (h4 : truthy (dget d "debug_full_logging") = false)
    (hi : env.osconfigInstalled = true)
    (hl : env.loadResult = Except.ok S) :
    handle name cfg env =
      ([Effect.whichCheck "osconfig",
        Effect.loadStateFile OSCONFIG_CONFIGURATION_FILEPATH,
        Effect.serviceStop "osconfig",
        Effect.writeJson OSCONFIG_CONFIGURATION_FILEPATH S,
        Effect.serviceStart "osconfig"], Except.ok ()) := by
  obtain ⟨inst, iok, lr⟩ := env
  subst hi; subst hl
  simp [handle, hs, update_config, reconcile_eq_of_falsy S d h1 h2 h3 h4]

/-- C10 witness: `osconfig: {}` over a non-trivial existing state. -/
theorem C10_empty_section_full_cycle_witness :
    handle "cc_osconfig" [("osconfig", JVal.obj [])]
        ⟨true, true, Except.ok [("Other", JVal.str "x")]⟩ =
      ([Effect.whichCheck "osconfig",
        Effect.loadStateFile OSCONFIG_CONFIGURATION_FILEPATH,
        Effect.serviceStop "osconfig",
        Effect.writeJson OSCONFIG_CONFIGURATION_FILEPATH
          [("Other", JVal.str "x")],
        Effect.serviceStart "osconfig"], Except.ok ()) :=
  C10_empty_section_full_cycle "cc_osconfig" [("osconfig", JVal.obj [])]
    [] [("Other", JVal.str "x")] ⟨true, true, Except.ok [("Other", JVal.str "x")]⟩
    rfl rfl rfl rfl rfl rfl rfl
